import Mathlib

/-!
Shallow embedding of `cds_ils/migrator/api.py` (CDS-ILS migrator API).

The Elasticsearch indexes consumed by the resolvers are modelled as lists of
hits; an exact-match `term` filter becomes `List.filter` with `==` on the
corresponding field.  The record store (`X.get_record_by_pid`) is modelled as
a total function from pid to record, passed in as a parameter.  Python
exceptions become the `Except` monad over `MigError`; a `raise` that escapes
a loop becomes an `.error` value of the whole loop.  Dicts whose key set is
fixed become structures; a key that may be absent becomes an `Option` field,
and a Python subscript `d[k]` on a possibly-absent key is a `match` whose
`none` branch is `MigError.keyError`.
-/

/-- Errors raised by the migrator: the five entity-specific MigrationError
classes from `cds_ils.migrator.errors`, Python's built-in `KeyError`
(carrying its message), and the `StopIteration` produced by `next()` on an
exhausted iterator. -/
inductive MigError where
  | documentMigrationError (msg : String)
  | itemMigrationError (msg : String)
  | loanMigrationError (msg : String)
  | multipartMigrationError (msg : String)
  | userMigrationError (msg : String)
  | keyError (msg : String)
  | stopIteration
  deriving Repr, DecidableEq

/-- Search hit of `ItemSearch`: pid plus the indexed `barcode` field. -/
structure ItemHit where
  pid : String
  barcode : String
  deriving Repr, DecidableEq

/-- Item record as stored (`Item.get_record_by_pid`): its pid and the
`document_pid` it references. -/
structure ItemRec where
  pid : String
  document_pid : String
  deriving Repr, DecidableEq

/-- Search hit of `PatronsSearch`: pid plus the indexed `person_id` and
`legacy_id` fields. -/
structure PatronHit where
  pid : String
  person_id : String
  legacy_id : String
  deriving Repr, DecidableEq

/-- Search hit of `InternalLocationSearch`: pid plus the indexed `legacy_id`
field. -/
structure LocationHit where
  pid : String
  legacy_id : String
  deriving Repr, DecidableEq

/-- Internal location record as stored. -/
structure InternalLocationRec where
  pid : String
  deriving Repr, DecidableEq

/-- Search hit of `SeriesSearch`: pid plus the indexed `mode_of_issuance`
and `legacy_recid` fields. -/
structure SeriesHit where
  pid : String
  mode_of_issuance : String
  legacy_recid : String
  deriving Repr, DecidableEq

/-- Series record as stored. -/
structure SeriesRec where
  pid : String
  deriving Repr, DecidableEq

/-- Search hit of `DocumentSearch`: pid plus the indexed `legacy_recid`
field. -/
structure DocumentHit where
  pid : String
  legacy_recid : String
  deriving Repr, DecidableEq

/-- Document record as stored, as consumed by the loan importer: its pid and
the optional `legacy_recid` field (read with `document.get("legacy_recid",
None)`). -/
structure DocumentRec where
  pid : String
  legacy_recid : Option String
  deriving Repr, DecidableEq

/-- Embedding of `get_item_by_barcode`: term-filter the item index on
`barcode`; zero hits and more than one hit both raise `ItemMigrationError`,
exactly one hit returns `Item.get_record_by_pid(hit.pid)`. -/
def get_item_by_barcode (store : String → ItemRec) (index : List ItemHit)
    (barcode : String) : Except MigError ItemRec :=
  match index.filter (fun h => h.barcode == barcode) with
  | [] => .error (.itemMigrationError ("no item found with barcode " ++ barcode))
  | [h] => .ok (store h.pid)
  | _ :: _ :: _ =>
      .error (.itemMigrationError ("found more than one item with barcode " ++ barcode))

/-- Embedding of `get_user_by_person_id`: term-filter the patron index on
`person_id`; zero hits return `None` (printed diagnostic only), more than one
raises `UserMigrationError`, exactly one returns the hit itself. -/
def get_user_by_person_id (index : List PatronHit) (person_id : String) :
    Except MigError (Option PatronHit) :=
  match index.filter (fun h => h.person_id == person_id) with
  | [] => .ok none
  | [h] => .ok (some h)
  | _ :: _ :: _ =>
      .error (.userMigrationError ("found more than one user with person_id " ++ person_id))

/-- Embedding of `get_user_by_legacy_id`: term-filter the patron index on
`legacy_id`; zero hits return `None`, more than one raises
`UserMigrationError`, exactly one returns the hit itself. -/
def get_user_by_legacy_id (index : List PatronHit) (legacy_id : String) :
    Except MigError (Option PatronHit) :=
  match index.filter (fun h => h.legacy_id == legacy_id) with
  | [] => .ok none
  | [h] => .ok (some h)
  | _ :: _ :: _ =>
      .error (.userMigrationError ("found more than one user with legacy_id " ++ legacy_id))

/-- Embedding of `get_internal_location_by_legacy_recid`: term-filter the
internal-location index on `legacy_id`; zero hits and more than one hit both
raise `ItemMigrationError` (note: not a location-specific error class),
exactly one returns `InternalLocation.get_record_by_pid(hit.pid)`. -/
def get_internal_location_by_legacy_recid (store : String → InternalLocationRec)
    (index : List LocationHit) (legacy_recid : String) :
    Except MigError InternalLocationRec :=
  match index.filter (fun h => h.legacy_id == legacy_recid) with
  | [] =>
      .error (.itemMigrationError ("no internal location found with legacy id " ++ legacy_recid))
  | [h] => .ok (store h.pid)
  | _ :: _ :: _ =>
      .error (.itemMigrationError
        ("found more than one internal location with legacy id " ++ legacy_recid))

/-- Embedding of `get_multipart_by_legacy_recid`: term-filter the series
index on `mode_of_issuance == "MULTIPART_MONOGRAPH"` and `legacy_recid`.
On zero hits the source only prints a diagnostic — the
`raise MultipartMigrationError` is commented out ("TODO uncomment with
cleaner data") — so the function falls through and returns `None`.  More
than one hit raises `MultipartMigrationError`; exactly one returns
`Series.get_record_by_pid(hit.pid)`. -/
def get_multipart_by_legacy_recid (store : String → SeriesRec)
    (index : List SeriesHit) (recid : String) : Except MigError (Option SeriesRec) :=
  match index.filter
      (fun h => h.mode_of_issuance == "MULTIPART_MONOGRAPH" && h.legacy_recid == recid) with
  | [] => .ok none
  | [h] => .ok (some (store h.pid))
  | _ :: _ :: _ =>
      .error (.multipartMigrationError ("found more than one multipart with recid " ++ recid))

/-- Embedding of `get_document_by_legacy_recid`: term-filter the document
index on `legacy_recid`; zero hits and more than one hit both raise
`DocumentMigrationError`, exactly one returns
`Document.get_record_by_pid(hit.pid)`. -/
def get_document_by_legacy_recid (store : String → DocumentRec)
    (index : List DocumentHit) (legacy_recid : String) : Except MigError DocumentRec :=
  match index.filter (fun h => h.legacy_recid == legacy_recid) with
  | [] =>
      .error (.documentMigrationError ("no document found with legacy recid " ++ legacy_recid))
  | [h] => .ok (store h.pid)
  | _ :: _ :: _ =>
      .error (.documentMigrationError ("found more than one document with recid " ++ legacy_recid))

/-- Dump record processed by `import_items_from_json`: the legacy fields it
reads (`barcode`, `id_crcLIBRARY`, `id_bibrec`) plus the two pid fields the
loop assigns into the dict before importing. -/
structure ItemDump where
  barcode : String
  id_crcLIBRARY : String
  id_bibrec : String
  internal_location_pid : Option String := none
  document_pid : Option String := none
  deriving Repr, DecidableEq

/-- Environment of `import_items_from_json`: the three search indexes, the
pid-to-record stores behind them, the external cleaning collaborator
`clean_item_record` (from `cds_ils.migrator.utils`, passed as a parameter:
it mutates the record and may raise), and the parsed `include` filter. -/
structure ItemImportEnv where
  locStore : String → InternalLocationRec
  docStore : String → DocumentRec
  itemStore : String → ItemRec
  locIndex : List LocationHit
  docIndex : List DocumentHit
  itemIndex : List ItemHit
  clean : ItemDump → Except MigError ItemDump
  include_ids : Option (List String)

/-- Embedding of the include filter guard of `import_items_from_json`:
`include_ids is None or record["barcode"] in include_ids`. -/
def passesInclude (include_ids : Option (List String)) (barcode : String) : Bool :=
  match include_ids with
  | none => true
  | some ids => ids.contains barcode

/-- Embedding of one iteration of the `import_items_from_json` loop body.
Result `.ok none` means the record was filtered out or skipped via
`continue`; `.ok (some r)` means `import_record` was called on the cleaned
record `r`; `.error e` means the exception `e` escapes the loop.  Faithful
points: the `get_internal_location_by_legacy_recid` call is NOT guarded by
any `try`, so its `ItemMigrationError` propagates; only
`DocumentMigrationError` is caught around the document lookup; only
`ItemMigrationError` is caught around `clean_item_record`; around
`get_item_by_barcode` a successful lookup leads to `continue` (the record is
truthy, so the skip diagnostic fires; a falsy record would simply fall
through without importing — either way nothing is imported), while a raised
`ItemMigrationError` triggers the import. -/
def import_item_step (env : ItemImportEnv) (record : ItemDump) :
    Except MigError (Option ItemDump) :=
  if passesInclude env.include_ids record.barcode then
    match get_internal_location_by_legacy_recid env.locStore env.locIndex
        record.id_crcLIBRARY with
    | .error e => .error e
    | .ok loc =>
      let record1 := { record with internal_location_pid := some loc.pid }
      match get_document_by_legacy_recid env.docStore env.docIndex record.id_bibrec with
      | .error (.documentMigrationError _) => .ok none
      | .error e => .error e
      | .ok doc =>
        let record2 := { record1 with document_pid := some doc.pid }
        match env.clean record2 with
        | .error (.itemMigrationError _) => .ok none
        | .error e => .error e
        | .ok record3 =>
          match get_item_by_barcode env.itemStore env.itemIndex record3.barcode with
          | .ok _ => .ok none
          | .error (.itemMigrationError _) => .ok (some record3)
          | .error e => .error e
  else .ok none

/-- Generic shape shared by the per-record batch loops of
`import_items_from_json` and `import_loans_from_json`: run the loop body on
each record in file order, collecting what was imported; an `.error` from
the body escapes the loop, keeping the records imported before it. -/
def batchLoop (step : α → Except MigError (Option β)) : List α → List β × Option MigError
  | [] => ([], none)
  | r :: rs =>
    match step r with
    | .error e => ([], some e)
    | .ok none => batchLoop step rs
    | .ok (some c) =>
      let (cs, e) := batchLoop step rs
      (c :: cs, e)

/-- Embedding of `import_items_from_json`: the per-record loop over the
dump file, returning the list of records given to `import_record` and the
exception (if any) that escaped the loop. -/
def import_items_from_json (env : ItemImportEnv) (records : List ItemDump) :
    List ItemDump × Option MigError :=
  batchLoop (import_item_step env) records

/-- Dump record processed by `import_loans_from_json`.  The
`legacy_document_id` field can hold JSON `null` (`Option`); the `state` key
is not among the fields this dump carries — the loop logic reads `status` —
so it is modelled as `Option`: the error branch subscripts `record["state"]`
and a missing key raises `KeyError`. -/
structure LoanDump where
  legacy_id : String
  id_crcBORROWER : String
  item_barcode : String
  legacy_document_id : Option String
  status : String
  start_date : String
  end_date : String
  returned_on : String
  state : Option String := none
  deriving Repr, DecidableEq

/-- The dict built by `import_loans_from_json` and handed to
`import_record`. -/
structure LoanDict where
  patron_pid : String
  transaction_location_pid : String
  transaction_user_pid : String
  document_pid : String
  item_pid : String
  start_date : String
  end_date : String
  state : String
  transaction_date : String
  deriving Repr, DecidableEq

/-- Environment of `import_loans_from_json`: default location pid, the
`SystemAgent.id` fallback patron, the patron and item indexes and the
stores behind item and document lookups. -/
structure LoanImportEnv where
  default_location_pid : String
  system_agent_id : String
  patronIndex : List PatronHit
  itemIndex : List ItemHit
  itemStore : String → ItemRec
  docStore : String → DocumentRec

/-- Embedding of one iteration of the `import_loans_from_json` loop body.
Result `.ok none` means the record was skipped (`continue` on a missing
item); `.ok (some (warn, ld))` means the loan dict `ld` was imported, with
`warn` recording whether the inconsistent-document diagnostic was printed;
`.error e` means `e` escapes the loop.  Faithful points: a
`UserMigrationError` from the borrower lookup is not caught; only
`ItemMigrationError` from the item lookup triggers `continue`; the
`legacy_document_id is None` check raises `LoanMigrationError`; the
document-consistency mismatch only prints; an unknown `status` reaches a
`raise LoanMigrationError` whose message formats `record["state"]` — a key
the dump does not carry — so when that key is absent the subscript raises
`KeyError("state")` before the `LoanMigrationError` is constructed. -/
def import_loan_step (env : LoanImportEnv) (r : LoanDump) :
    Except MigError (Option (Bool × LoanDict)) :=
  match get_user_by_legacy_id env.patronIndex r.id_crcBORROWER with
  | .error e => .error e
  | .ok user =>
    let patron_pid := match user with
      | none => env.system_agent_id
      | some u => u.pid
    match get_item_by_barcode env.itemStore env.itemIndex r.item_barcode with
    | .error (.itemMigrationError _) => .ok none
    | .error e => .error e
    | .ok item =>
      let document_pid := item.document_pid
      let document := env.docStore document_pid
      match r.legacy_document_id with
      | none => .error (.loanMigrationError ("no document id for loan " ++ r.legacy_id))
      | some _ =>
        let warn := document.legacy_recid != r.legacy_document_id
        if r.status = "on loan" then
          .ok (some (warn,
            { patron_pid := patron_pid
              transaction_location_pid := env.default_location_pid
              transaction_user_pid := env.system_agent_id
              document_pid := document_pid
              item_pid := item.pid
              start_date := r.start_date
              end_date := r.end_date
              state := "ITEM_ON_LOAN"
              transaction_date := r.start_date }))
        else if r.status = "returned" then
          .ok (some (warn,
            { patron_pid := patron_pid
              transaction_location_pid := env.default_location_pid
              transaction_user_pid := env.system_agent_id
              transaction_date := r.returned_on
              document_pid := document_pid
              item_pid := item.pid
              start_date := r.start_date
              end_date := r.returned_on
              state := "ITEM_RETURNED" }))
        else
          match r.state with
          | some s =>
              .error (.loanMigrationError
                ("Unkown loan state for record " ++ r.legacy_id ++ ": " ++ s))
          | none => .error (.keyError "state")

/-- Embedding of `import_loans_from_json`: the per-record loop over the
dump file, returning the imported loan dicts (with their warning flags) and
the exception (if any) that escaped the loop. -/
def import_loans_from_json (env : LoanImportEnv) (records : List LoanDump) :
    List (Bool × LoanDict) × Option MigError :=
  batchLoop (import_loan_step env) records

/-- Field mapping of a volume fragment or of a merged volume: an
insertion-ordered dict from field name to value. -/
abbrev FieldList := List (String × String)

/-- Raw volume fragment from `_migration.volumes`: in the source each
fragment is one dict holding the key `"volume"` (the ordinal) together with
the partial fields; here the ordinal is split out and `fields` holds the
remaining keys, so the source's `if key != "volume"` guard is structural. -/
structure Fragment where
  volume : Nat
  fields : FieldList
  deriving Repr, DecidableEq

/-- Dict lookup on a string-keyed field list (first binding wins, as in a
Python dict built by insertion). -/
def lookupStr (k : String) : FieldList → Option String
  | [] => none
  | (k', v) :: rest => if k' = k then some v else lookupStr k rest

/-- Dict lookup on the ordinal-keyed mapping of merged volumes. -/
def lookupNat (k : Nat) : List (Nat × FieldList) → Option FieldList
  | [] => none
  | (k', v) :: rest => if k' = k then some v else lookupNat k rest

/-- Dict update (in place) on the ordinal-keyed mapping: replace the binding
if the ordinal is present, append it otherwise. -/
def updateVolumes (n : Nat) (f : FieldList) : List (Nat × FieldList) → List (Nat × FieldList)
  | [] => [(n, f)]
  | (m, g) :: rest => if m = n then (n, f) :: rest else (m, g) :: updateVolumes n f rest

/-- Embedding of the inner merge loop of `create_multipart_volumes`: copy
the fragment's field bindings into the ordinal's accumulated dict one by
one; a key already present raises
`KeyError('Duplicate key "k" for multipart mlr')`. -/
def mergeFields (mlr : String) : FieldList → FieldList → Except MigError FieldList
  | cur, [] => .ok cur
  | cur, (k, v) :: rest =>
    match lookupStr k cur with
    | some _ => .error (.keyError ("Duplicate key " ++ k ++ " for multipart " ++ mlr))
    | none => mergeFields mlr (cur ++ [(k, v)]) rest

/-- Embedding of the grouping phase of `create_multipart_volumes`: fold the
fragments into the ordinal-to-merged-fields mapping (`volumes` in the
source), starting each unseen ordinal from the empty dict. -/
def groupVolumes (mlr : String) (vols : List (Nat × FieldList)) :
    List Fragment → Except MigError (List (Nat × FieldList))
  | [] => .ok vols
  | frag :: rest =>
    match mergeFields mlr ((lookupNat frag.volume vols).getD []) frag.fields with
    | .error e => .error e
    | .ok merged => groupVolumes mlr (updateVolumes frag.volume merged vols) rest

/-- Document record as touched by the volume splitter: the fields the
splitter reads or writes (`title`, `volume`, `legacy_recid`,
`_migration.multipart_legacy_recid`, `pid`), plus `extra` standing for every
other field, carried along unchanged by mutation and by `first.copy()`. -/
structure DocRec where
  pid : String
  title : Option String := none
  volume : Option Nat := none
  legacy_recid : Option String := none
  migration_multipart_legacy_recid : Option String := none
  extra : FieldList := []
  deriving Repr, DecidableEq

/-- Embedding of the first-volume mutation of `create_multipart_volumes`:
the parent document fetched by pid is updated in place — `title` and
`volume` are overwritten only when the merged fragment has a `"title"` key,
the `_migration.multipart_legacy_recid` stamp is always set, and
`legacy_recid` is deleted when present (removing it unconditionally is the
same map) — and then committed as an update. -/
def firstVolumeDoc (base : DocRec) (mlr : String) (fv : Nat) (vfields : FieldList) : DocRec :=
  let d := match lookupStr "title" vfields with
    | some t => { base with title := some t, volume := some fv }
    | none => base
  { d with migration_multipart_legacy_recid := some mlr, legacy_recid := none }

/-- Embedding of the second loop of `create_multipart_volumes`: for each
remaining ordinal, copy the (already mutated) first document, overwrite
`title` (a direct subscript — a merged fragment without a `"title"` key
raises `KeyError`) and `volume`, mint a fresh pid from the document id
provider (modelled by the supply `fresh`, indexed by how many pids were
minted so far) and create the new record.  Yields are collected in order;
an exception ends the sequence after the documents already yielded. -/
def restVolumeDocs (firstDoc : DocRec) (vols : List (Nat × FieldList)) (fresh : Nat → String)
    (idx : Nat) : List Nat → List DocRec × Option MigError
  | [] => ([], none)
  | n :: ns =>
    match lookupStr "title" ((lookupNat n vols).getD []) with
    | none => ([], some (.keyError "title"))
    | some t =>
      let doc := { firstDoc with title := some t, volume := some n, pid := fresh idx }
      let (ds, e) := restVolumeDocs firstDoc vols fresh (idx + 1) ns
      (doc :: ds, e)

/-- Embedding of the generator `create_multipart_volumes`: group the
fragments by ordinal (a duplicate field key aborts before any yield), sort
the ordinals ascending, mutate and yield the parent document for the lowest
ordinal, then create and yield one fresh document per remaining ordinal.
The result is the sequence of yielded documents together with the exception
(if any) that ended the generator; `next()` on an empty ordinal set is the
`stopIteration` case. -/
def create_multipart_volumes (store : String → DocRec) (fresh : Nat → String)
    (pid : String) (multipart_legacy_recid : String) (migration_volumes : List Fragment) :
    List DocRec × Option MigError :=
  match groupVolumes multipart_legacy_recid [] migration_volumes with
  | .error e => ([], some e)
  | .ok vols =>
    match List.insertionSort (· ≤ ·) (vols.map Prod.fst) with
    | [] => ([], some .stopIteration)
    | fv :: rest =>
      let first := firstVolumeDoc (store pid) multipart_legacy_recid fv
        ((lookupNat fv vols).getD [])
      let (ds, e) := restVolumeDocs first vols fresh 0 rest
      (first :: ds, e)

/-- Relation edge recorded by `create_parent_child_relation` via
`RecordRelationsParentChild().add`. -/
structure RelationEdge where
  parent_pid : String
  child_pid : String
  relation_type : String
  volume : Option String
  deriving Repr, DecidableEq

/-- Embedding of `create_parent_child_relation`: the `volume` argument is
passed as `str(volume) if volume else None`, so a falsy ordinal (0) becomes
`None`. -/
def create_parent_child_relation (parent_pid child_pid relation_type : String)
    (volume : Option Nat) : RelationEdge :=
  { parent_pid := parent_pid, child_pid := child_pid, relation_type := relation_type,
    volume := match volume with
      | some v => if v = 0 then none else some (toString v)
      | none => none }

/-- Document hit driving `link_and_create_multipart_volumes`: pid, the
optional `legacy_recid`, the `_migration.is_multipart` flag the search
filters on, and the embedded `_migration.volumes` fragments. -/
structure MultipartDocHit where
  pid : String
  legacy_recid : Option String
  is_multipart : Bool
  migration_volumes : List Fragment
  deriving Repr, DecidableEq

/-- Embedding of the relation-creation inner loop of
`link_and_create_multipart_volumes` when the multipart parent resolved:
each produced document is linked with `relation_type=MULTIPART_MONOGRAPH`
and `document["volume"]` — a direct subscript, so a document without a
`volume` field raises `KeyError`. -/
def linkRelations (parent_pid : String) : List DocRec → List RelationEdge × Option MigError
  | [] => ([], none)
  | d :: ds =>
    match d.volume with
    | none => ([], some (.keyError "volume"))
    | some v =>
      let (rs, e) := linkRelations parent_pid ds
      (create_parent_child_relation parent_pid d.pid "multipart_monograph" (some v) :: rs, e)

/-- Embedding of one iteration of the `link_and_create_multipart_volumes`
loop: skip hits without a `legacy_recid`; resolve the owning multipart (an
ambiguous lookup propagates, zero matches give `None`); run the volume
splitter; create a relation for each yielded document only when the
multipart resolved (`if document and multipart`).  When a relation raises,
the generator is not consumed further, so only the documents up to and
including the failing one were produced. -/
def link_multipart_hit (sstore : String → SeriesRec) (sIndex : List SeriesHit)
    (store : String → DocRec) (fresh : Nat → String) (hit : MultipartDocHit) :
    List DocRec × List RelationEdge × Option MigError :=
  match hit.legacy_recid with
  | none => ([], [], none)
  | some rid =>
    match get_multipart_by_legacy_recid sstore sIndex rid with
    | .error e => ([], [], some e)
    | .ok mp =>
      let (docs, err) := create_multipart_volumes store fresh hit.pid rid hit.migration_volumes
      match mp with
      | none => (docs, [], err)
      | some m =>
        match linkRelations m.pid docs with
        | (rels, none) => (docs, rels, err)
        | (rels, some e) => (docs.take (rels.length + 1), rels, some e)

/-- Loop shape of `link_and_create_multipart_volumes` over the scanned
hits: an exception escapes, keeping the work done before it. -/
def linkLoop (sstore : String → SeriesRec) (sIndex : List SeriesHit)
    (store : String → DocRec) (fresh : Nat → String) :
    List MultipartDocHit → List DocRec × List RelationEdge × Option MigError
  | [] => ([], [], none)
  | h :: hs =>
    match link_multipart_hit sstore sIndex store fresh h with
    | (ds, rs, some e) => (ds, rs, some e)
    | (ds, rs, none) =>
      let (ds', rs', e) := linkLoop sstore sIndex store fresh hs
      (ds ++ ds', rs ++ rs', e)

/-- Embedding of `link_and_create_multipart_volumes`: scan the document
index restricted to `_migration.is_multipart == True` and process each hit
in turn. -/
def link_and_create_multipart_volumes (sstore : String → SeriesRec)
    (sIndex : List SeriesHit) (store : String → DocRec) (fresh : Nat → String)
    (docHits : List MultipartDocHit) :
    List DocRec × List RelationEdge × Option MigError :=
  linkLoop sstore sIndex store fresh (docHits.filter (fun h => h.is_multipart))

/-- Concrete item-import environment: the location index holds only legacy
id `L2`, so resolution of `L1` finds zero matches. -/
def envC1 : ItemImportEnv :=
  { locStore := fun p => { pid := p }
    docStore := fun p => { pid := p, legacy_recid := some "200" }
    itemStore := fun p => { pid := p, document_pid := "dp1" }
    locIndex := [{ pid := "lp2", legacy_id := "L2" }]
    docIndex := [{ pid := "dp1", legacy_recid := "200" }]
    itemIndex := []
    clean := fun r => .ok r
    include_ids := none }

/-- Dump record whose library id `L1` has no match in `envC1`. -/
def rC1bad : ItemDump := { barcode := "B1", id_crcLIBRARY := "L1", id_bibrec := "200" }

/-- Dump record that would import successfully in `envC1` if reached. -/
def rC1good : ItemDump := { barcode := "B2", id_crcLIBRARY := "L2", id_bibrec := "200" }

/-- Concrete item-import environment whose item index already holds two
items with barcode `B1`. -/
def envC8 : ItemImportEnv :=
  { locStore := fun p => { pid := p }
    docStore := fun p => { pid := p, legacy_recid := some "200" }
    itemStore := fun p => { pid := p, document_pid := "dp1" }
    locIndex := [{ pid := "lp1", legacy_id := "L1" }]
    docIndex := [{ pid := "dp1", legacy_recid := "200" }]
    itemIndex := [{ pid := "ipA", barcode := "B1" }, { pid := "ipB", barcode := "B1" }]
    clean := fun r => .ok r
    include_ids := none }

/-- Dump record with the duplicated barcode `B1`. -/
def rC8 : ItemDump := { barcode := "B1", id_crcLIBRARY := "L1", id_bibrec := "200" }

/-- Concrete loan-import environment: one item with barcode `B1` whose
stored document (pid `docpid9`) has `legacy_recid = "555"`. -/
def envC6 : LoanImportEnv :=
  { default_location_pid := "loc1"
    system_agent_id := "agent"
    patronIndex := []
    itemIndex := [{ pid := "ip1", barcode := "B1" }]
    itemStore := fun _ => { pid := "ip1", document_pid := "docpid9" }
    docStore := fun _ => { pid := "docpid9", legacy_recid := some "555" } }

/-- Loan dump record with status `"on loan"` and a consistent document id. -/
def rC6on : LoanDump :=
  { legacy_id := "L77", id_crcBORROWER := "u1", item_barcode := "B1",
    legacy_document_id := some "555", status := "on loan",
    start_date := "2020-01-01", end_date := "2020-02-01", returned_on := "2020-03-01" }

/-- Loan dump record with status `"returned"` and a consistent document id. -/
def rC6ret : LoanDump :=
  { legacy_id := "L78", id_crcBORROWER := "u1", item_barcode := "B1",
    legacy_document_id := some "555", status := "returned",
    start_date := "2020-01-01", end_date := "2020-02-01", returned_on := "2020-03-01" }

/-- Loan dump record with the unmodeled status `"lost"`; like every record
of this dump it carries no `state` key. -/
def rC6lost : LoanDump :=
  { legacy_id := "L79", id_crcBORROWER := "u1", item_barcode := "B1",
    legacy_document_id := some "555", status := "lost",
    start_date := "2020-01-01", end_date := "2020-02-01", returned_on := "2020-03-01" }

/-- Loan dump record whose document id `999` disagrees with the `555`
stored on the item's document. -/
def rC7mm : LoanDump :=
  { legacy_id := "L80", id_crcBORROWER := "u1", item_barcode := "B1",
    legacy_document_id := some "999", status := "on loan",
    start_date := "2020-01-01", end_date := "2020-02-01", returned_on := "2020-03-01" }

/-- Loan dump record whose `legacy_document_id` is JSON null. -/
def rC10null : LoanDump :=
  { legacy_id := "L81", id_crcBORROWER := "u1", item_barcode := "B1",
    legacy_document_id := none, status := "on loan",
    start_date := "2020-01-01", end_date := "2020-02-01", returned_on := "2020-03-01" }

/-- Parent document sitting in the store under pid `P` for the volume
splitter fixtures. -/
def baseDocW : DocRec :=
  { pid := "P", title := some "T0", volume := none, legacy_recid := some "300",
    migration_multipart_legacy_recid := none, extra := [("author", "X")] }

/-- Document store for the volume splitter fixtures. -/
def docStoreW : String → DocRec := fun _ => baseDocW

/-- Fresh-pid supply for the volume splitter fixtures. -/
def freshW : Nat → String := fun i => "new" ++ toString i

/-- Fragment set with ordinals in input order 3, 1, 2. -/
def fragsW : List Fragment :=
  [{ volume := 3, fields := [("title", "C")] },
   { volume := 1, fields := [("title", "A")] },
   { volume := 2, fields := [("title", "B")] }]

theorem batchLoop_append_abort {α β : Type} (step : α → Except MigError (Option β))
    (pre : List α) (r : α) (post : List α) (e : MigError)
    (hpre : (batchLoop step pre).2 = none)
    (hstep : step r = .error e) :
    batchLoop step (pre ++ r :: post) = ((batchLoop step pre).1, some e) := by
  induction pre with
  | nil => simp [batchLoop, hstep]
  | cons p ps ih =>
    cases hs : step p with
    | error e' => simp [batchLoop, hs] at hpre
    | ok o =>
      cases o with
      | none =>
        have hpre' : (batchLoop step ps).2 = none := by simpa [batchLoop, hs] using hpre
        simpa [batchLoop, hs] using ih hpre'
      | some c =>
        have hpre' : (batchLoop step ps).2 = none := by simpa [batchLoop, hs] using hpre
        simp [batchLoop, hs, ih hpre']

theorem lookupStr_append_left {k : String} {l1 : FieldList} {v : String}
    (h : lookupStr k l1 = some v) (l2 : FieldList) :
    lookupStr k (l1 ++ l2) = some v := by
  induction l1 with
  | nil => simp [lookupStr] at h
  | cons p rest ih =>
    cases p with
    | mk k' w =>
      by_cases hk : k' = k
      · simpa [lookupStr, hk] using h
      · rw [lookupStr, if_neg hk] at h
        simpa [lookupStr, hk] using ih h

theorem lookupStr_append_right {k : String} {l1 : FieldList}
    (h : lookupStr k l1 = none) (l2 : FieldList) :
    lookupStr k (l1 ++ l2) = lookupStr k l2 := by
  induction l1 with
  | nil => simp [lookupStr]
  | cons p rest ih =>
    cases p with
    | mk k' w =>
      by_cases hk : k' = k
      · simp [lookupStr, hk] at h
      · rw [lookupStr, if_neg hk] at h
        simpa [lookupStr, hk] using ih h

theorem lookupStr_isSome_iff {k : String} {l : FieldList} :
    (lookupStr k l).isSome = true ↔ k ∈ l.map Prod.fst := by
  induction l with
  | nil => simp [lookupStr]
  | cons p rest ih =>
    cases p with
    | mk k' w =>
      by_cases hk : k' = k
      · simp [lookupStr, hk]
      · simp [lookupStr, hk, ih, Ne.symm hk]

theorem lookupNat_isSome_iff {k : Nat} {l : List (Nat × FieldList)} :
    (lookupNat k l).isSome = true ↔ k ∈ l.map Prod.fst := by
  induction l with
  | nil => simp [lookupNat]
  | cons p rest ih =>
    cases p with
    | mk k' w =>
      by_cases hk : k' = k
      · simp [lookupNat, hk]
      · simp [lookupNat, hk, ih, Ne.symm hk]

theorem lookupNat_mem {k : Nat} {l : List (Nat × FieldList)} {g : FieldList}
    (h : lookupNat k l = some g) : (k, g) ∈ l := by
  induction l with
  | nil => simp [lookupNat] at h
  | cons p rest ih =>
    cases p with
    | mk k' w =>
      by_cases hk : k' = k
      · rw [lookupNat, if_pos hk] at h
        subst hk
        cases Option.some.inj h
        exact List.mem_cons_self _ _
      · rw [lookupNat, if_neg hk] at h
        exact List.mem_cons_of_mem _ (ih h)

theorem mergeFields_disjoint_ok (mlr : String) : ∀ (fs cur : FieldList),
    (∀ k, k ∈ fs.map Prod.fst → lookupStr k cur = none) →
    (fs.map Prod.fst).Nodup →
    mergeFields mlr cur fs = .ok (cur ++ fs) := by
  intro fs
  induction fs with
  | nil => intro cur _ _; simp [mergeFields]
  | cons p rest ih =>
    intro cur hdisj hnd
    cases p with
    | mk k v =>
      have hk : lookupStr k cur = none := hdisj k (by simp)
      rw [List.map_cons] at hnd
      have hnd' : (rest.map Prod.fst).Nodup := hnd.of_cons
      have hknotin : k ∉ rest.map Prod.fst := (List.nodup_cons.mp hnd).1
      rw [mergeFields, hk, ih (cur ++ [(k, v)]) ?_ hnd']
      · rw [List.append_assoc]
        rfl
      · intro k' hk'
        have hne : k' ≠ k := fun h => hknotin (h ▸ hk')
        rw [lookupStr_append_right (hdisj k' (by simp [hk'])) [(k, v)]]
        simp [lookupStr, hne.symm]

theorem mergeFields_shared_error (mlr : String) : ∀ (fs cur : FieldList),
    (∃ k, k ∈ fs.map Prod.fst ∧ (lookupStr k cur).isSome = true) →
    ∃ m, mergeFields mlr cur fs = .error (.keyError m) := by
  intro fs
  induction fs with
  | nil =>
    rintro cur ⟨k, hk, _⟩
    simp at hk
  | cons p rest ih =>
    rintro cur ⟨k0, hk0, hsome⟩
    cases p with
    | mk k v =>
      cases hcur : lookupStr k cur with
      | some w => exact ⟨_, by rw [mergeFields, hcur]⟩
      | none =>
        have hk0ne : k0 ≠ k := by
          rintro rfl
          rw [hcur] at hsome
          simp at hsome
        have hk0mem : k0 ∈ rest.map Prod.fst := by
          rcases (by simpa using hk0 : k0 = k ∨ k0 ∈ rest.map Prod.fst) with h | h
          · exact absurd h hk0ne
          · exact h
        obtain ⟨v0, hv0⟩ := Option.isSome_iff_exists.mp hsome
        have : (lookupStr k0 (cur ++ [(k, v)])).isSome = true := by
          rw [lookupStr_append_left hv0]
          rfl
        rw [mergeFields, hcur]
        exact ih (cur ++ [(k, v)]) ⟨k0, hk0mem, this⟩

theorem mergeFields_title (mlr : String) : ∀ (fs cur out : FieldList),
    mergeFields mlr cur fs = .ok out →
    ((lookupStr "title" cur).isSome = true ∨ (lookupStr "title" fs).isSome = true) →
    (lookupStr "title" out).isSome = true := by
  intro fs
  induction fs with
  | nil =>
    intro cur out h hd
    rw [mergeFields] at h
    cases Except.ok.inj h
    rcases hd with hc | hf
    · exact hc
    · simp [lookupStr] at hf
  | cons p rest ih =>
    intro cur out h hd
    cases p with
    | mk k v =>
      cases hcur : lookupStr k cur with
      | some w => rw [mergeFields, hcur] at h; exact absurd h (by simp)
      | none =>
        rw [mergeFields, hcur] at h
        apply ih (cur ++ [(k, v)]) out h
        rcases hd with hc | hf
        · obtain ⟨v0, hv0⟩ := Option.isSome_iff_exists.mp hc
          left
          rw [lookupStr_append_left hv0]
          rfl
        · by_cases hk : k = "title"
          · left
            subst hk
            rw [lookupStr_append_right hcur]
            simp [lookupStr]
          · right
            rw [lookupStr, if_neg hk] at hf
            exact hf

theorem updateVolumes_keys (n : Nat) (f : FieldList) : ∀ l : List (Nat × FieldList),
    (updateVolumes n f l).map Prod.fst =
      if (lookupNat n l).isSome then l.map Prod.fst else l.map Prod.fst ++ [n] := by
  intro l
  induction l with
  | nil => simp [updateVolumes, lookupNat]
  | cons p rest ih =>
    cases p with
    | mk m g =>
      by_cases h : m = n
      · subst h
        simp [updateVolumes, lookupNat]
      · rw [updateVolumes, if_neg h, lookupNat, if_neg h]
        by_cases hrest : (lookupNat n rest).isSome
        · simp [hrest, ih]
        · simp only [List.map_cons, ih]
          simp [hrest]

theorem updateVolumes_mem (n : Nat) (f : FieldList) :
    ∀ (l : List (Nat × FieldList)) (p : Nat × FieldList),
    p ∈ updateVolumes n f l → p = (n, f) ∨ p ∈ l := by
  intro l
  induction l with
  | nil => intro p hp; simpa [updateVolumes] using hp
  | cons q rest ih =>
    intro p hp
    cases q with
    | mk m g =>
      by_cases h : m = n
      · rw [updateVolumes, if_pos h] at hp
        rcases List.mem_cons.mp hp with h1 | h1
        · exact Or.inl h1
        · exact Or.inr (List.mem_cons_of_mem _ h1)
      · rw [updateVolumes, if_neg h] at hp
        rcases List.mem_cons.mp hp with h1 | h1
        · exact Or.inr (h1 ▸ List.mem_cons_self _ _)
        · rcases ih p h1 with h2 | h2
          · exact Or.inl h2
          · exact Or.inr (List.mem_cons_of_mem _ h2)

theorem groupVolumes_keys_nodup (mlr : String) :
    ∀ (frags : List Fragment) (vols0 out : List (Nat × FieldList)),
    groupVolumes mlr vols0 frags = .ok out →
    (vols0.map Prod.fst).Nodup → (out.map Prod.fst).Nodup := by
  intro frags
  induction frags with
  | nil =>
    intro vols0 out h hnd
    rw [groupVolumes] at h
    cases Except.ok.inj h
    exact hnd
  | cons frag rest ih =>
    intro vols0 out h hnd
    cases hm : mergeFields mlr ((lookupNat frag.volume vols0).getD []) frag.fields with
    | error e => rw [groupVolumes, hm] at h; exact absurd h (by simp)
    | ok merged =>
      rw [groupVolumes, hm] at h
      apply ih _ _ h
      rw [updateVolumes_keys]
      by_cases hin : (lookupNat frag.volume vols0).isSome
      · simp [hin, hnd]
      · have hnotin : frag.volume ∉ vols0.map Prod.fst := by
          rw [← lookupNat_isSome_iff]
          simpa using hin
        simp [hin, List.nodup_append, hnd, hnotin]

theorem groupVolumes_title (mlr : String) :
    ∀ (frags : List Fragment) (vols0 out : List (Nat × FieldList)),
    groupVolumes mlr vols0 frags = .ok out →
    (∀ p ∈ vols0, (lookupStr "title" p.2).isSome = true) →
    (∀ f ∈ frags, (lookupStr "title" f.fields).isSome = true) →
    ∀ p ∈ out, (lookupStr "title" p.2).isSome = true := by
  intro frags
  induction frags with
  | nil =>
    intro vols0 out h h0 _
    rw [groupVolumes] at h
    cases Except.ok.inj h
    exact h0
  | cons frag rest ih =>
    intro vols0 out h h0 hf
    cases hm : mergeFields mlr ((lookupNat frag.volume vols0).getD []) frag.fields with
    | error e => rw [groupVolumes, hm] at h; exact absurd h (by simp)
    | ok merged =>
      rw [groupVolumes, hm] at h
      have hmerged : (lookupStr "title" merged).isSome = true := by
        apply mergeFields_title mlr frag.fields _ merged hm
        cases hl : lookupNat frag.volume vols0 with
        | none => right; exact hf frag (List.mem_cons_self _ _)
        | some g =>
          left
          simpa using h0 (frag.volume, g) (lookupNat_mem hl)
      apply ih _ _ h
      · intro p hp
        rcases updateVolumes_mem _ _ _ p hp with h1 | h1
        · rw [h1]; exact hmerged
        · exact h0 p h1
      · intro f hfmem
        exact hf f (List.mem_cons_of_mem _ hfmem)

theorem restVolumeDocs_ok (firstDoc : DocRec) (vols : List (Nat × FieldList))
    (fresh : Nat → String) :
    ∀ (ns : List Nat) (idx : Nat) (ds : List DocRec),
    restVolumeDocs firstDoc vols fresh idx ns = (ds, none) →
    ds.map DocRec.volume = ns.map some ∧
    ds.map DocRec.pid = (List.range ns.length).map (fun i => fresh (idx + i)) := by
  intro ns
  induction ns with
  | nil =>
    intro idx ds h
    rw [restVolumeDocs] at h
    cases h
    simp
  | cons n ns' ih =>
    intro idx ds h
    cases ht : lookupStr "title" ((lookupNat n vols).getD []) with
    | none =>
      rw [restVolumeDocs, ht] at h
      cases h
    | some t =>
      cases hr : restVolumeDocs firstDoc vols fresh (idx + 1) ns' with
      | mk ds' e' =>
        rw [restVolumeDocs, ht, hr] at h
        dsimp only at h
        obtain ⟨h1, h2⟩ := Prod.mk.inj h
        subst h1
        obtain ⟨ihv, ihp⟩ := ih (idx + 1) ds' (by rw [hr, h2])
        have hfun : ((fun i => fresh (idx + i)) ∘ Nat.succ) = (fun i => fresh (idx + 1 + i)) := by
          funext i
          simp only [Function.comp_apply]
          congr 1
          omega
        refine ⟨by simp [ihv], ?_⟩
        rw [List.map_cons, ihp, List.length_cons, List.range_succ_eq_map, List.map_cons,
          List.map_map, hfun]
        simp

theorem location_resolver_error_of_ne_one (store : String → InternalLocationRec)
    (index : List LocationHit) (key : String)
    (hne : (index.filter (fun x => x.legacy_id == key)).length ≠ 1) :
    ∃ m, get_internal_location_by_legacy_recid store index key =
      .error (.itemMigrationError m) := by
  cases hf : index.filter (fun x => x.legacy_id == key) with
  | nil =>
    refine ⟨"no internal location found with legacy id " ++ key, ?_⟩
    rw [get_internal_location_by_legacy_recid, hf]
  | cons a t =>
    cases t with
    | nil => exact absurd (by rw [hf]; rfl) hne
    | cons b t' =>
      refine ⟨"found more than one internal location with legacy id " ++ key, ?_⟩
      rw [get_internal_location_by_legacy_recid, hf]

/-- Claim C1 (counterexample): in `envC1` the internal-location resolution
of record `rC1bad` finds zero matches, yet the batch does NOT merely skip
the record: the `ItemMigrationError` escapes the loop, no record at all is
imported, and the following record `rC1good` — which imports fine when the
loop does reach it — is never processed. -/
theorem C1_counterexample :
    import_items_from_json envC1 [rC1bad, rC1good] =
      ([], some (.itemMigrationError "no internal location found with legacy id L1")) ∧
    import_items_from_json envC1 [rC1good] =
      ([{ rC1good with internal_location_pid := some "lp2", document_pid := some "dp1" }],
        none) :=
  ⟨rfl, rfl⟩

/-- Claim C1 (amended): during item import, for every dump record whose
InternalLocation resolution fails (zero or ambiguous matches for its legacy
library id), no Item record is created for it, but the resolver's
`ItemMigrationError` is not caught: it escapes the batch loop, aborting the
run at that record instead of continuing with the next one. -/
theorem C1_amended_location_failure_aborts (env : ItemImportEnv) (r : ItemDump)
    (pre post : List ItemDump)
    (hinc : passesInclude env.include_ids r.barcode = true)
    (hloc : (env.locIndex.filter (fun x => x.legacy_id == r.id_crcLIBRARY)).length ≠ 1)
    (hpre : (import_items_from_json env pre).2 = none) :
    ∃ m, import_item_step env r = .error (.itemMigrationError m) ∧
      import_items_from_json env (pre ++ r :: post) =
        ((import_items_from_json env pre).1, some (.itemMigrationError m)) := by
  obtain ⟨m, hm⟩ := location_resolver_error_of_ne_one env.locStore env.locIndex
    r.id_crcLIBRARY hloc
  have hstep : import_item_step env r = .error (.itemMigrationError m) := by
    rw [import_item_step, if_pos hinc, hm]
  exact ⟨m, hstep, batchLoop_append_abort _ pre r post _ hpre hstep⟩

/-- Claim C1 (witness): the amended theorem applied to the concrete
environment `envC1` and the records `rC1bad` (failing location) and
`rC1good`. -/
theorem C1_witness :
    passesInclude envC1.include_ids rC1bad.barcode = true ∧
    (envC1.locIndex.filter (fun x => x.legacy_id == rC1bad.id_crcLIBRARY)).length ≠ 1 ∧
    (import_items_from_json envC1 []).2 = none ∧
    ∃ m, import_item_step envC1 rC1bad = .error (.itemMigrationError m) ∧
      import_items_from_json envC1 ([] ++ rC1bad :: [rC1good]) =
        ((import_items_from_json envC1 []).1, some (.itemMigrationError m)) :=
  ⟨rfl, by decide, rfl,
    C1_amended_location_failure_aborts envC1 rC1bad [] [rC1good] rfl (by decide) rfl⟩

/-- Claim C2 (counterexample): the multipart resolver is not a user lookup,
yet zero index matches do NOT yield a not-found error: the
`raise MultipartMigrationError` in the source is commented out, so the
lookup returns `None` as a normal outcome. -/
theorem C2_counterexample :
    get_multipart_by_legacy_recid (fun p => { pid := p }) [] "300" = .ok none ∧
    ∀ e, get_multipart_by_legacy_recid (fun p => { pid := p }) [] "300" ≠ .error e :=
  ⟨rfl, fun _ h => by cases h⟩

/-- Claim C2 (amended): for every resolver, exactly one index match returns
that record and two or more matches raises the entity-specific ambiguous
MigrationError (`ItemMigrationError` for items and internal locations,
`UserMigrationError` for both user lookups, `MultipartMigrationError` for
multiparts, `DocumentMigrationError` for documents); zero matches yields
the not-found error for the item, internal-location and document resolvers,
and `None` for the user lookups — and also for the multipart lookup, whose
not-found raise is commented out pending cleaner data. -/
theorem C2_amended_resolver_cardinality :
    (∀ (store : String → ItemRec) (index : List ItemHit) (key : String),
      (index.filter (fun x => x.barcode == key) = [] →
        ∃ m, get_item_by_barcode store index key = .error (.itemMigrationError m)) ∧
      (∀ h, index.filter (fun x => x.barcode == key) = [h] →
        get_item_by_barcode store index key = .ok (store h.pid)) ∧
      (2 ≤ (index.filter (fun x => x.barcode == key)).length →
        ∃ m, get_item_by_barcode store index key = .error (.itemMigrationError m))) ∧
    (∀ (index : List PatronHit) (key : String),
      (index.filter (fun x => x.person_id == key) = [] →
        get_user_by_person_id index key = .ok none) ∧
      (∀ h, index.filter (fun x => x.person_id == key) = [h] →
        get_user_by_person_id index key = .ok (some h)) ∧
      (2 ≤ (index.filter (fun x => x.person_id == key)).length →
        ∃ m, get_user_by_person_id index key = .error (.userMigrationError m))) ∧
    (∀ (index : List PatronHit) (key : String),
      (index.filter (fun x => x.legacy_id == key) = [] →
        get_user_by_legacy_id index key = .ok none) ∧
      (∀ h, index.filter (fun x => x.legacy_id == key) = [h] →
        get_user_by_legacy_id index key = .ok (some h)) ∧
      (2 ≤ (index.filter (fun x => x.legacy_id == key)).length →
        ∃ m, get_user_by_legacy_id index key = .error (.userMigrationError m))) ∧
    (∀ (store : String → InternalLocationRec) (index : List LocationHit) (key : String),
      (index.filter (fun x => x.legacy_id == key) = [] →
        ∃ m, get_internal_location_by_legacy_recid store index key =
          .error (.itemMigrationError m)) ∧
      (∀ h, index.filter (fun x => x.legacy_id == key) = [h] →
        get_internal_location_by_legacy_recid store index key = .ok (store h.pid)) ∧
      (2 ≤ (index.filter (fun x => x.legacy_id == key)).length →
        ∃ m, get_internal_location_by_legacy_recid store index key =
          .error (.itemMigrationError m))) ∧
    (∀ (store : String → SeriesRec) (index : List SeriesHit) (key : String),
      (index.filter
          (fun x => x.mode_of_issuance == "MULTIPART_MONOGRAPH" && x.legacy_recid == key) = [] →
        get_multipart_by_legacy_recid store index key = .ok none) ∧
      (∀ h, index.filter
          (fun x => x.mode_of_issuance == "MULTIPART_MONOGRAPH" && x.legacy_recid == key) = [h] →
        get_multipart_by_legacy_recid store index key = .ok (some (store h.pid))) ∧
      (2 ≤ (index.filter
          (fun x => x.mode_of_issuance == "MULTIPART_MONOGRAPH" && x.legacy_recid == key)).length →
        ∃ m, get_multipart_by_legacy_recid store index key =
          .error (.multipartMigrationError m))) ∧
    (∀ (store : String → DocumentRec) (index : List DocumentHit) (key : String),
      (index.filter (fun x => x.legacy_recid == key) = [] →
        ∃ m, get_document_by_legacy_recid store index key =
          .error (.documentMigrationError m)) ∧
      (∀ h, index.filter (fun x => x.legacy_recid == key) = [h] →
        get_document_by_legacy_recid store index key = .ok (store h.pid)) ∧
      (2 ≤ (index.filter (fun x => x.legacy_recid == key)).length →
        ∃ m, get_document_by_legacy_recid store index key =
          .error (.documentMigrationError m))) := by
  refine ⟨?_, ?_, ?_, ?_, ?_, ?_⟩
  · intro store index key
    refine ⟨?_, ?_, ?_⟩
    · intro hf
      exact ⟨_, by rw [get_item_by_barcode, hf]⟩
    · intro h hf
      rw [get_item_by_barcode, hf]
    · intro hlen
      cases hf : index.filter (fun x => x.barcode == key) with
      | nil => rw [hf] at hlen; simp at hlen
      | cons a t =>
        cases t with
        | nil => rw [hf] at hlen; simp at hlen
        | cons b t' => exact ⟨_, by rw [get_item_by_barcode, hf]⟩
  · intro index key
    refine ⟨?_, ?_, ?_⟩
    · intro hf
      rw [get_user_by_person_id, hf]
    · intro h hf
      rw [get_user_by_person_id, hf]
    · intro hlen
      cases hf : index.filter (fun x => x.person_id == key) with
      | nil => rw [hf] at hlen; simp at hlen
      | cons a t =>
        cases t with
        | nil => rw [hf] at hlen; simp at hlen
        | cons b t' => exact ⟨_, by rw [get_user_by_person_id, hf]⟩
  · intro index key
    refine ⟨?_, ?_, ?_⟩
    · intro hf
      rw [get_user_by_legacy_id, hf]
    · intro h hf
      rw [get_user_by_legacy_id, hf]
    · intro hlen
      cases hf : index.filter (fun x => x.legacy_id == key) with
      | nil => rw [hf] at hlen; simp at hlen
      | cons a t =>
        cases t with
        | nil => rw [hf] at hlen; simp at hlen
        | cons b t' => exact ⟨_, by rw [get_user_by_legacy_id, hf]⟩
  · intro store index key
    refine ⟨?_, ?_, ?_⟩
    · intro hf
      exact ⟨_, by rw [get_internal_location_by_legacy_recid, hf]⟩
    · intro h hf
      rw [get_internal_location_by_legacy_recid, hf]
    · intro hlen
      exact location_resolver_error_of_ne_one store index key (by omega)
  · intro store index key
    refine ⟨?_, ?_, ?_⟩
    · intro hf
      rw [get_multipart_by_legacy_recid, hf]
    · intro h hf
      rw [get_multipart_by_legacy_recid, hf]
    · intro hlen
      cases hf : index.filter
          (fun x => x.mode_of_issuance == "MULTIPART_MONOGRAPH" && x.legacy_recid == key) with
      | nil => rw [hf] at hlen; simp at hlen
      | cons a t =>
        cases t with
        | nil => rw [hf] at hlen; simp at hlen
        | cons b t' => exact ⟨_, by rw [get_multipart_by_legacy_recid, hf]⟩
  · intro store index key
    refine ⟨?_, ?_, ?_⟩
    · intro hf
      exact ⟨_, by rw [get_document_by_legacy_recid, hf]⟩
    · intro h hf
      rw [get_document_by_legacy_recid, hf]
    · intro hlen
      cases hf : index.filter (fun x => x.legacy_recid == key) with
      | nil => rw [hf] at hlen; simp at hlen
      | cons a t =>
        cases t with
        | nil => rw [hf] at hlen; simp at hlen
        | cons b t' => exact ⟨_, by rw [get_document_by_legacy_recid, hf]⟩

/-- Claim C2 (witness): the amended cardinality contract applied at
concrete inputs — a one-hit item lookup returns the stored record, the
zero-hit multipart lookup returns `None`, and the zero-hit document lookup
raises `DocumentMigrationError`. -/
theorem C2_witness :
    get_item_by_barcode (fun p => { pid := p, document_pid := "d" })
      [{ pid := "i1", barcode := "b" }] "b" = .ok { pid := "i1", document_pid := "d" } ∧
    get_multipart_by_legacy_recid (fun p => { pid := p }) [] "301" = .ok none ∧
    (∃ m, get_document_by_legacy_recid (fun p => { pid := p, legacy_recid := none }) [] "5" =
      .error (.documentMigrationError m)) :=
  ⟨(C2_amended_resolver_cardinality.1 (fun p => { pid := p, document_pid := "d" })
      [{ pid := "i1", barcode := "b" }] "b").2.1 { pid := "i1", barcode := "b" } rfl,
    (C2_amended_resolver_cardinality.2.2.2.2.1 (fun p => { pid := p }) [] "301").1 rfl,
    (C2_amended_resolver_cardinality.2.2.2.2.2 (fun p => { pid := p, legacy_recid := none })
      [] "5").1 rfl⟩

/-- Claim C6: legacy status `"on loan"` maps to state `ITEM_ON_LOAN` with
`transaction_date = start_date`, and `"returned"` maps to `ITEM_RETURNED`
with `transaction_date = end_date = returned_on` — but an unmodeled status
does NOT raise `LoanMigrationError` as intended: formatting its message
subscripts `record["state"]`, a key the dump record does not carry, so
`KeyError("state")` is raised instead (`status`/`state` slip in the
source). -/
theorem C6_loan_status_mapping :
    import_loan_step envC6 rC6on = .ok (some (false,
      { patron_pid := "agent", transaction_location_pid := "loc1",
        transaction_user_pid := "agent", document_pid := "docpid9", item_pid := "ip1",
        start_date := "2020-01-01", end_date := "2020-02-01", state := "ITEM_ON_LOAN",
        transaction_date := "2020-01-01" })) ∧
    import_loan_step envC6 rC6ret = .ok (some (false,
      { patron_pid := "agent", transaction_location_pid := "loc1",
        transaction_user_pid := "agent", document_pid := "docpid9", item_pid := "ip1",
        start_date := "2020-01-01", end_date := "2020-03-01", state := "ITEM_RETURNED",
        transaction_date := "2020-03-01" })) ∧
    import_loan_step envC6 rC6lost = .error (.keyError "state") :=
  ⟨rfl, rfl, rfl⟩

/-- Claim C7: when the referenced item resolves and the dump's document id
disagrees with the `legacy_recid` of the Document attached to the item, the
mismatch only sets the diagnostic flag — no exception — the loan is still
created, and its `document_pid` is the item's stored `document_pid`, not
the dump's value. -/
theorem C7_document_mismatch_soft (env : LoanImportEnv) (r : LoanDump) (d : String)
    (u : Option PatronHit) (item : ItemRec)
    (huser : get_user_by_legacy_id env.patronIndex r.id_crcBORROWER = .ok u)
    (hitem : get_item_by_barcode env.itemStore env.itemIndex r.item_barcode = .ok item)
    (hdocid : r.legacy_document_id = some d)
    (hmm : (env.docStore item.document_pid).legacy_recid ≠ some d)
    (hstatus : r.status = "on loan" ∨ r.status = "returned") :
    ∃ ld, import_loan_step env r = .ok (some (true, ld)) ∧
      ld.document_pid = item.document_pid := by
  have hwarn : ((env.docStore item.document_pid).legacy_recid != some d) = true := by
    rw [bne_iff_ne]
    exact hmm
  rcases hstatus with h | h
  · cases u with
    | none =>
      refine ⟨{ patron_pid := env.system_agent_id,
                transaction_location_pid := env.default_location_pid,
                transaction_user_pid := env.system_agent_id,
                document_pid := item.document_pid, item_pid := item.pid,
                start_date := r.start_date, end_date := r.end_date,
                state := "ITEM_ON_LOAN", transaction_date := r.start_date }, ?_, rfl⟩
      simp only [import_loan_step, huser, hitem, hdocid, h, hwarn, if_true]
    | some u1 =>
      refine ⟨{ patron_pid := u1.pid,
                transaction_location_pid := env.default_location_pid,
                transaction_user_pid := env.system_agent_id,
                document_pid := item.document_pid, item_pid := item.pid,
                start_date := r.start_date, end_date := r.end_date,
                state := "ITEM_ON_LOAN", transaction_date := r.start_date }, ?_, rfl⟩
      simp only [import_loan_step, huser, hitem, hdocid, h, hwarn, if_true]
  · cases u with
    | none =>
      refine ⟨{ patron_pid := env.system_agent_id,
                transaction_location_pid := env.default_location_pid,
                transaction_user_pid := env.system_agent_id,
                document_pid := item.document_pid, item_pid := item.pid,
                start_date := r.start_date, end_date := r.returned_on,
                state := "ITEM_RETURNED", transaction_date := r.returned_on }, ?_, rfl⟩
      simp only [import_loan_step, huser, hitem, hdocid, h, hwarn, if_true]
      rw [if_neg (by decide)]
    | some u1 =>
      refine ⟨{ patron_pid := u1.pid,
                transaction_location_pid := env.default_location_pid,
                transaction_user_pid := env.system_agent_id,
                document_pid := item.document_pid, item_pid := item.pid,
                start_date := r.start_date, end_date := r.returned_on,
                state := "ITEM_RETURNED", transaction_date := r.returned_on }, ?_, rfl⟩
      simp only [import_loan_step, huser, hitem, hdocid, h, hwarn, if_true]
      rw [if_neg (by decide)]

/-- Claim C7 (witness): in `envC6`, record `rC7mm` names document `999`
while the item's stored document has `legacy_recid = "555"`; the loan is
still created with the warning flag set and `document_pid = "docpid9"`
taken from the item. -/
theorem C7_witness :
    get_user_by_legacy_id envC6.patronIndex rC7mm.id_crcBORROWER = .ok none ∧
    get_item_by_barcode envC6.itemStore envC6.itemIndex rC7mm.item_barcode =
      .ok { pid := "ip1", document_pid := "docpid9" } ∧
    rC7mm.legacy_document_id = some "999" ∧
    (envC6.docStore "docpid9").legacy_recid ≠ some "999" ∧
    rC7mm.status = "on loan" ∧
    ∃ ld, import_loan_step envC6 rC7mm = .ok (some (true, ld)) ∧
      ld.document_pid = "docpid9" :=
  ⟨rfl, rfl, rfl, by decide, rfl,
    C7_document_mismatch_soft envC6 rC7mm "999" none
      { pid := "ip1", document_pid := "docpid9" } rfl rfl rfl (by decide) (Or.inl rfl)⟩

/-- Claim C10: for a loan record whose item resolves and whose
`legacy_document_id` is JSON null, `import_loans_from_json` raises
`LoanMigrationError` before building the loan dict, and the error escapes
the loop: the records after it are never processed, only the loans imported
before it remain. -/
theorem C10_null_document_id_aborts (env : LoanImportEnv) (r : LoanDump)
    (pre post : List LoanDump) (u : Option PatronHit) (item : ItemRec)
    (huser : get_user_by_legacy_id env.patronIndex r.id_crcBORROWER = .ok u)
    (hitem : get_item_by_barcode env.itemStore env.itemIndex r.item_barcode = .ok item)
    (hnone : r.legacy_document_id = none)
    (hpre : (import_loans_from_json env pre).2 = none) :
    import_loan_step env r =
      .error (.loanMigrationError ("no document id for loan " ++ r.legacy_id)) ∧
    import_loans_from_json env (pre ++ r :: post) =
      ((import_loans_from_json env pre).1,
        some (.loanMigrationError ("no document id for loan " ++ r.legacy_id))) := by
  have hstep : import_loan_step env r =
      .error (.loanMigrationError ("no document id for loan " ++ r.legacy_id)) := by
    simp only [import_loan_step, huser, hitem, hnone]
  exact ⟨hstep, batchLoop_append_abort _ pre r post _ hpre hstep⟩

/-- Claim C10 (witness): the theorem applied to `envC6` and the
null-document record `rC10null` with an empty prefix and one trailing
record. -/
theorem C10_witness :
    get_user_by_legacy_id envC6.patronIndex rC10null.id_crcBORROWER = .ok none ∧
    get_item_by_barcode envC6.itemStore envC6.itemIndex rC10null.item_barcode =
      .ok { pid := "ip1", document_pid := "docpid9" } ∧
    rC10null.legacy_document_id = none ∧
    (import_loans_from_json envC6 []).2 = none ∧
    import_loan_step envC6 rC10null =
      .error (.loanMigrationError ("no document id for loan " ++ rC10null.legacy_id)) ∧
    import_loans_from_json envC6 ([] ++ rC10null :: [rC6on]) =
      ((import_loans_from_json envC6 []).1,
        some (.loanMigrationError ("no document id for loan " ++ rC10null.legacy_id))) := by
  refine ⟨rfl, rfl, rfl, rfl, ?_, ?_⟩
  · exact (C10_null_document_id_aborts envC6 rC10null [] [rC6on] none
      { pid := "ip1", document_pid := "docpid9" } rfl rfl rfl rfl).1
  · exact (C10_null_document_id_aborts envC6 rC10null [] [rC6on] none
      { pid := "ip1", document_pid := "docpid9" } rfl rfl rfl rfl).2

/-- Claim C8: the skip-if-exists check of item import does not distinguish
not-found from ambiguous: with two or more existing items sharing the
barcode, `get_item_by_barcode` raises the same `ItemMigrationError`
constructor as the not-found case, the `except ItemMigrationError` handler
treats it as "item does not exist" and the record is imported anyway; the
skip branch fires only when the lookup finds exactly one item. -/
theorem C8_ambiguous_barcode_not_distinguished (env : ItemImportEnv) (r : ItemDump)
    (loc : InternalLocationRec) (doc : DocumentRec) (r3 : ItemDump)
    (hinc : passesInclude env.include_ids r.barcode = true)
    (hloc : get_internal_location_by_legacy_recid env.locStore env.locIndex
      r.id_crcLIBRARY = .ok loc)
    (hdoc : get_document_by_legacy_recid env.docStore env.docIndex r.id_bibrec = .ok doc)
    (hclean : env.clean { { r with internal_location_pid := some loc.pid } with
      document_pid := some doc.pid } = .ok r3) :
    (env.itemIndex.filter (fun x => x.barcode == r3.barcode) = [] →
      import_item_step env r = .ok (some r3)) ∧
    (∀ h, env.itemIndex.filter (fun x => x.barcode == r3.barcode) = [h] →
      import_item_step env r = .ok none) ∧
    (2 ≤ (env.itemIndex.filter (fun x => x.barcode == r3.barcode)).length →
      (∃ m, get_item_by_barcode env.itemStore env.itemIndex r3.barcode =
        .error (.itemMigrationError m)) ∧
      import_item_step env r = .ok (some r3)) := by
  refine ⟨?_, ?_, ?_⟩
  · intro hf
    have hbar : get_item_by_barcode env.itemStore env.itemIndex r3.barcode =
        .error (.itemMigrationError ("no item found with barcode " ++ r3.barcode)) := by
      rw [get_item_by_barcode, hf]
    simp only [import_item_step, hinc, hloc, hdoc, hclean, hbar, if_true]
  · intro h hf
    have hbar : get_item_by_barcode env.itemStore env.itemIndex r3.barcode =
        .ok (env.itemStore h.pid) := by
      rw [get_item_by_barcode, hf]
    simp only [import_item_step, hinc, hloc, hdoc, hclean, hbar, if_true]
  · intro hlen
    cases hf : env.itemIndex.filter (fun x => x.barcode == r3.barcode) with
    | nil => rw [hf] at hlen; simp at hlen
    | cons a t =>
      cases t with
      | nil => rw [hf] at hlen; simp at hlen
      | cons b t' =>
        have hbar : get_item_by_barcode env.itemStore env.itemIndex r3.barcode =
            .error (.itemMigrationError ("found more than one item with barcode " ++
              r3.barcode)) := by
          rw [get_item_by_barcode, hf]
        refine ⟨⟨_, hbar⟩, ?_⟩
        simp only [import_item_step, hinc, hloc, hdoc, hclean, hbar, if_true]

/-- Claim C8 (witness): in `envC8` two items already carry barcode `B1`,
and the record `rC8` is imported anyway. -/
theorem C8_witness :
    passesInclude envC8.include_ids rC8.barcode = true ∧
    get_internal_location_by_legacy_recid envC8.locStore envC8.locIndex
      rC8.id_crcLIBRARY = .ok { pid := "lp1" } ∧
    get_document_by_legacy_recid envC8.docStore envC8.docIndex rC8.id_bibrec =
      .ok { pid := "dp1", legacy_recid := some "200" } ∧
    envC8.clean { { rC8 with internal_location_pid := some "lp1" } with
      document_pid := some "dp1" } =
      .ok { rC8 with internal_location_pid := some "lp1", document_pid := some "dp1" } ∧
    2 ≤ (envC8.itemIndex.filter (fun x => x.barcode ==
      ({ rC8 with internal_location_pid := some "lp1",
                  document_pid := some "dp1" } : ItemDump).barcode)).length ∧
    import_item_step envC8 rC8 =
      .ok (some { rC8 with internal_location_pid := some "lp1",
                            document_pid := some "dp1" }) :=
  ⟨rfl, rfl, rfl, rfl, by decide,
    ((C8_ambiguous_barcode_not_distinguished envC8 rC8 { pid := "lp1" }
      { pid := "dp1", legacy_recid := some "200" }
      { rC8 with internal_location_pid := some "lp1", document_pid := some "dp1" }
      rfl rfl rfl rfl).2.2 (by decide)).2⟩

/-- Claim C9: when the owning multipart Series cannot be resolved for a
flagged document (zero matches, resolver returns `None`), the Volume
Splitter is still executed in full — the generator is consumed by the
relation loop, so the first-volume mutation and every remaining volume
creation happen — and only the relation edges are skipped. -/
theorem C9_unresolved_multipart_still_splits (sstore : String → SeriesRec)
    (sIndex : List SeriesHit) (store : String → DocRec) (fresh : Nat → String)
    (hit : MultipartDocHit) (rid : String)
    (hrid : hit.legacy_recid = some rid)
    (hzero : sIndex.filter
      (fun x => x.mode_of_issuance == "MULTIPART_MONOGRAPH" && x.legacy_recid == rid) = []) :
    link_multipart_hit sstore sIndex store fresh hit =
      ((create_multipart_volumes store fresh hit.pid rid hit.migration_volumes).1, [],
        (create_multipart_volumes store fresh hit.pid rid hit.migration_volumes).2) := by
  have hmp : get_multipart_by_legacy_recid sstore sIndex rid = .ok none := by
    rw [get_multipart_by_legacy_recid, hzero]
  cases hc : create_multipart_volumes store fresh hit.pid rid hit.migration_volumes with
  | mk docs err => simp only [link_multipart_hit, hrid, hmp, hc]

/-- Claim C9 (witness): the theorem applied to a flagged document whose
legacy recid `300` has no multipart in the (empty) series index; the
splitter output is produced and no relation is created. -/
theorem C9_witness :
    ({ pid := "P", legacy_recid := some "300", is_multipart := true,
        migration_volumes := fragsW } : MultipartDocHit).legacy_recid = some "300" ∧
    ([] : List SeriesHit).filter
      (fun x => x.mode_of_issuance == "MULTIPART_MONOGRAPH" && x.legacy_recid == "300") = [] ∧
    link_multipart_hit (fun p => { pid := p }) [] docStoreW freshW
      { pid := "P", legacy_recid := some "300", is_multipart := true,
        migration_volumes := fragsW } =
      ((create_multipart_volumes docStoreW freshW "P" "300" fragsW).1, [],
        (create_multipart_volumes docStoreW freshW "P" "300" fragsW).2) :=
  ⟨rfl, rfl, C9_unresolved_multipart_still_splits (fun p => { pid := p }) [] docStoreW
    freshW { pid := "P", legacy_recid := some "300", is_multipart := true,
             migration_volumes := fragsW } "300" rfl rfl⟩

/-- Claim C4: the lowest ordinal never creates a new Document — the first
yielded record is the parent fetched by the incoming pid, mutated in place:
same pid (no fresh mint), `_migration.multipart_legacy_recid` stamped,
`legacy_recid` removed, all other fields carried over, and `title`/`volume`
overwritten from the merged fragment exactly when that fragment has a
`"title"` key. -/
theorem C4_first_volume_mutated_in_place (store : String → DocRec) (fresh : Nat → String)
    (pid mlr : String) (frags : List Fragment) (vols : List (Nat × FieldList))
    (fv : Nat) (rest : List Nat)
    (hg : groupVolumes mlr [] frags = .ok vols)
    (hs : List.insertionSort (· ≤ ·) (vols.map Prod.fst) = fv :: rest) :
    ∃ d ds e,
      create_multipart_volumes store fresh pid mlr frags = (d :: ds, e) ∧
      d.pid = (store pid).pid ∧
      d.migration_multipart_legacy_recid = some mlr ∧
      d.legacy_recid = none ∧
      d.extra = (store pid).extra ∧
      (∀ t, lookupStr "title" ((lookupNat fv vols).getD []) = some t →
        d.title = some t ∧ d.volume = some fv) ∧
      (lookupStr "title" ((lookupNat fv vols).getD []) = none →
        d.title = (store pid).title ∧ d.volume = (store pid).volume) := by
  cases hr : restVolumeDocs (firstVolumeDoc (store pid) mlr fv ((lookupNat fv vols).getD []))
      vols fresh 0 rest with
  | mk ds e =>
    refine ⟨firstVolumeDoc (store pid) mlr fv ((lookupNat fv vols).getD []), ds, e,
      ?_, ?_, ?_, ?_, ?_, ?_, ?_⟩
    · simp only [create_multipart_volumes, hg, hs, hr]
    · cases hT : lookupStr "title" ((lookupNat fv vols).getD []) <;>
        simp [firstVolumeDoc, hT]
    · cases hT : lookupStr "title" ((lookupNat fv vols).getD []) <;>
        simp [firstVolumeDoc, hT]
    · cases hT : lookupStr "title" ((lookupNat fv vols).getD []) <;>
        simp [firstVolumeDoc, hT]
    · cases hT : lookupStr "title" ((lookupNat fv vols).getD []) <;>
        simp [firstVolumeDoc, hT]
    · intro t hT
      simp [firstVolumeDoc, hT]
    · intro hT
      simp [firstVolumeDoc, hT]

/-- Claim C4 (witness): the theorem applied to the `fragsW` fixture, where
the lowest ordinal is 1 and its merged fragment has title `A`. -/
theorem C4_witness :
    groupVolumes "300" [] fragsW =
      .ok [(3, [("title", "C")]), (1, [("title", "A")]), (2, [("title", "B")])] ∧
    List.insertionSort (· ≤ ·)
      ([(3, [("title", "C")]), (1, [("title", "A")]),
        (2, [("title", "B")])].map Prod.fst) = 1 :: [2, 3] ∧
    ∃ d ds e,
      create_multipart_volumes docStoreW freshW "P" "300" fragsW = (d :: ds, e) ∧
      d.pid = (docStoreW "P").pid ∧
      d.migration_multipart_legacy_recid = some "300" ∧
      d.legacy_recid = none ∧
      d.extra = (docStoreW "P").extra ∧
      (∀ t, lookupStr "title" ((lookupNat 1 [(3, [("title", "C")]), (1, [("title", "A")]),
          (2, [("title", "B")])]).getD []) = some t →
        d.title = some t ∧ d.volume = some 1) ∧
      (lookupStr "title" ((lookupNat 1 [(3, [("title", "C")]), (1, [("title", "A")]),
          (2, [("title", "B")])]).getD []) = none →
        d.title = (docStoreW "P").title ∧ d.volume = (docStoreW "P").volume) :=
  ⟨rfl, rfl, C4_first_volume_mutated_in_place docStoreW freshW "P" "300" fragsW
    [(3, [("title", "C")]), (1, [("title", "A")]), (2, [("title", "B")])] 1 [2, 3]
    rfl rfl⟩

/-- Claim C5: merging two fragments with the same volume ordinal raises the
fatal duplicate-key `KeyError` exactly when they share a field key (the
ordinal key itself is excluded structurally); with disjoint field keys they
merge into a single field mapping for that ordinal. -/
theorem C5_duplicate_key_detection (mlr : String) (f1 f2 : Fragment)
    (hvol : f1.volume = f2.volume)
    (hnd1 : (f1.fields.map Prod.fst).Nodup) (hnd2 : (f2.fields.map Prod.fst).Nodup) :
    ((∃ k, k ∈ f1.fields.map Prod.fst ∧ k ∈ f2.fields.map Prod.fst) →
      ∃ m, groupVolumes mlr [] [f1, f2] = .error (.keyError m)) ∧
    ((∀ k, k ∈ f1.fields.map Prod.fst → k ∉ f2.fields.map Prod.fst) →
      groupVolumes mlr [] [f1, f2] = .ok [(f1.volume, f1.fields ++ f2.fields)]) := by
  have hm1 : mergeFields mlr ((lookupNat f1.volume
      ([] : List (Nat × FieldList))).getD []) f1.fields = .ok f1.fields := by
    have h0 := mergeFields_disjoint_ok mlr f1.fields [] (fun k _ => rfl) hnd1
    simpa [lookupNat] using h0
  have hstep1 : groupVolumes mlr [] [f1, f2] =
      groupVolumes mlr (updateVolumes f1.volume f1.fields []) [f2] := by
    rw [groupVolumes, hm1]
  have hupd1 : updateVolumes f1.volume f1.fields ([] : List (Nat × FieldList)) =
      [(f1.volume, f1.fields)] := rfl
  have hlk1 : (lookupNat f2.volume [(f1.volume, f1.fields)]).getD [] = f1.fields := by
    rw [← hvol]
    simp [lookupNat]
  constructor
  · rintro ⟨k, hk1, hk2⟩
    have hsome : (lookupStr k f1.fields).isSome = true := lookupStr_isSome_iff.mpr hk1
    obtain ⟨m, hm⟩ := mergeFields_shared_error mlr f2.fields f1.fields ⟨k, hk2, hsome⟩
    refine ⟨m, ?_⟩
    rw [hstep1, hupd1]
    simp only [groupVolumes, hlk1, hm]
  · intro hdisj
    have hm2 : mergeFields mlr f1.fields f2.fields = .ok (f1.fields ++ f2.fields) := by
      apply mergeFields_disjoint_ok mlr f2.fields f1.fields ?_ hnd2
      intro k hk
      have : k ∉ f1.fields.map Prod.fst := fun hmem => hdisj k hmem hk
      cases hlk : lookupStr k f1.fields with
      | none => rfl
      | some v =>
        exact absurd (lookupStr_isSome_iff.mp (by rw [hlk]; rfl)) this
    rw [hstep1, hupd1]
    simp only [groupVolumes, updateVolumes, hvol, if_true]
    have hlk2 : (lookupNat f2.volume [(f2.volume, f1.fields)]).getD [] = f1.fields := by
      simp [lookupNat]
    rw [hlk2, hm2]

/-- Claim C5 (witness): for ordinal 1, fragments with fields
`{title: A}` and `{title: X}` collide on `title` and raise the duplicate
`KeyError`, while `{title: A}` and `{isbn: X}` merge into one mapping. -/
theorem C5_witness :
    (({ volume := 1, fields := [("title", "A")] } : Fragment).volume =
      ({ volume := 1, fields := [("title", "X")] } : Fragment).volume) ∧
    (∃ m, groupVolumes "300" [] [{ volume := 1, fields := [("title", "A")] },
      { volume := 1, fields := [("title", "X")] }] = .error (.keyError m)) ∧
    groupVolumes "300" [] [{ volume := 1, fields := [("title", "A")] },
      { volume := 1, fields := [("isbn", "X")] }] =
      .ok [(1, [("title", "A"), ("isbn", "X")])] :=
  ⟨rfl,
    (C5_duplicate_key_detection "300" { volume := 1, fields := [("title", "A")] }
      { volume := 1, fields := [("title", "X")] } rfl (by decide) (by decide)).1
      ⟨"title", by decide, by decide⟩,
    (C5_duplicate_key_detection "300" { volume := 1, fields := [("title", "A")] }
      { volume := 1, fields := [("isbn", "X")] } rfl (by decide) (by decide)).2
      (by decide)⟩

/-- Claim C3: whenever the Volume Splitter runs to completion on a fragment
set whose fragments all carry a title, the yielded Documents follow the
strictly ascending order of the distinct volume ordinals — whatever the
input order of the fragments — the lowest ordinal's Document keeps the
incoming parent pid, and each subsequent Document's pid is the next fresh
mint of the Document id provider. -/
theorem C3_volumes_ascending_fresh_pids (store : String → DocRec) (fresh : Nat → String)
    (pid mlr : String) (frags : List Fragment) (docs : List DocRec)
    (hstore : (store pid).pid = pid)
    (hrun : create_multipart_volumes store fresh pid mlr frags = (docs, none))
    (htitle : ∀ f ∈ frags, (lookupStr "title" f.fields).isSome = true) :
    ∃ ords : List Nat,
      docs.map DocRec.volume = ords.map some ∧
      List.Sorted (· < ·) ords ∧
      docs.map DocRec.pid = pid :: (List.range (docs.length - 1)).map fresh := by
  cases hg : groupVolumes mlr [] frags with
  | error e =>
    simp [create_multipart_volumes, hg] at hrun
  | ok vols =>
    cases hs : List.insertionSort (· ≤ ·) (vols.map Prod.fst) with
    | nil =>
      simp [create_multipart_volumes, hg, hs] at hrun
    | cons fv rest =>
      cases hr : restVolumeDocs (firstVolumeDoc (store pid) mlr fv
          ((lookupNat fv vols).getD [])) vols fresh 0 rest with
      | mk ds e =>
        rw [create_multipart_volumes, hg] at hrun
        dsimp only at hrun
        rw [hs] at hrun
        dsimp only at hrun
        rw [hr] at hrun
        dsimp only at hrun
        obtain ⟨hdocs, he⟩ := Prod.mk.inj hrun
        subst hdocs
        subst he
        obtain ⟨hv, hp⟩ := restVolumeDocs_ok _ vols fresh rest 0 ds hr
        have hfvmem : fv ∈ vols.map Prod.fst := by
          have hmem : fv ∈ List.insertionSort (· ≤ ·) (vols.map Prod.fst) := by
            rw [hs]
            exact List.mem_cons_self _ _
          exact (List.mem_insertionSort _).mp hmem
        obtain ⟨g, hgl⟩ := Option.isSome_iff_exists.mp (lookupNat_isSome_iff.mpr hfvmem)
        have hgtitle : (lookupStr "title" g).isSome = true :=
          groupVolumes_title mlr frags [] vols hg (by intro p hp0; cases hp0) htitle
            (fv, g) (lookupNat_mem hgl)
        obtain ⟨t, ht⟩ := Option.isSome_iff_exists.mp hgtitle
        have hgetD : (lookupNat fv vols).getD [] = g := by rw [hgl]; rfl
        have hfvol : (firstVolumeDoc (store pid) mlr fv
            ((lookupNat fv vols).getD [])).volume = some fv := by
          rw [hgetD]
          simp [firstVolumeDoc, ht]
        have hfpid : (firstVolumeDoc (store pid) mlr fv
            ((lookupNat fv vols).getD [])).pid = pid := by
          rw [hgetD]
          cases hT : lookupStr "title" g <;> simp [firstVolumeDoc, hT, hstore]
        refine ⟨fv :: rest, ?_, ?_, ?_⟩
        · rw [List.map_cons, hfvol, hv, List.map_cons]
        · have hsortedle : List.Sorted (· ≤ ·) (fv :: rest) := by
            rw [← hs]
            exact List.sorted_insertionSort _ _
          have hnd : (vols.map Prod.fst).Nodup :=
            groupVolumes_keys_nodup mlr frags [] vols hg (by simp)
          have hndsort : (fv :: rest).Nodup := by
            rw [← hs]
            exact ((List.perm_insertionSort _ _).nodup_iff).mpr hnd
          exact hsortedle.lt_of_le hndsort
        · have hlen : ds.length = rest.length := by
            have := congrArg List.length hv
            simpa using this
          rw [List.map_cons, hfpid, hp]
          have hlen2 : (firstVolumeDoc (store pid) mlr fv
              ((lookupNat fv vols).getD []) :: ds).length - 1 = rest.length := by
            simp [hlen]
          rw [hlen2]
          refine congrArg (fun l => pid :: l) ?_
          apply List.map_congr_left
          intro a _
          rw [Nat.zero_add]

/-- Claim C3 (witness): the fragment set `fragsW` arrives with ordinals in
order 3, 1, 2; the splitter yields Documents for ordinals 1, 2, 3 in
ascending order, volume 1 keeping pid `P` and volumes 2 and 3 receiving the
fresh pids `new0` and `new1`. -/
theorem C3_witness :
    (docStoreW "P").pid = "P" ∧
    (∀ f ∈ fragsW, (lookupStr "title" f.fields).isSome = true) ∧
    create_multipart_volumes docStoreW freshW "P" "300" fragsW =
      ([⟨"P", some "A", some 1, none, some "300", [("author", "X")]⟩,
        ⟨"new0", some "B", some 2, none, some "300", [("author", "X")]⟩,
        ⟨"new1", some "C", some 3, none, some "300", [("author", "X")]⟩], none) ∧
    ∃ ords : List Nat,
      ([⟨"P", some "A", some 1, none, some "300", [("author", "X")]⟩,
        ⟨"new0", some "B", some 2, none, some "300", [("author", "X")]⟩,
        ⟨"new1", some "C", some 3, none, some "300", [("author", "X")]⟩] :
          List DocRec).map DocRec.volume = ords.map some ∧
      List.Sorted (· < ·) ords ∧
      ([⟨"P", some "A", some 1, none, some "300", [("author", "X")]⟩,
        ⟨"new0", some "B", some 2, none, some "300", [("author", "X")]⟩,
        ⟨"new1", some "C", some 3, none, some "300", [("author", "X")]⟩] :
          List DocRec).map DocRec.pid =
        "P" :: (List.range (([⟨"P", some "A", some 1, none, some "300",
          [("author", "X")]⟩,
          ⟨"new0", some "B", some 2, none, some "300", [("author", "X")]⟩,
          ⟨"new1", some "C", some 3, none, some "300", [("author", "X")]⟩] :
            List DocRec).length - 1)).map freshW :=
  ⟨rfl, by decide, rfl,
    C3_volumes_ascending_fresh_pids docStoreW freshW "P" "300" fragsW
      [⟨"P", some "A", some 1, none, some "300", [("author", "X")]⟩,
        ⟨"new0", some "B", some 2, none, some "300", [("author", "X")]⟩,
        ⟨"new1", some "C", some 3, none, some "300", [("author", "X")]⟩]
      rfl rfl (by decide)⟩
